import Mathlib

/-!
Verification of the student-management controller, service boundary and
error middleware of this repository, as a shallow embedding in Lean 4.

The embedding models the subset of JavaScript runtime values the code
manipulates, the validators and handlers of students-controller.js,
the database wrapper process-db-request.js, and the global error
middleware handle-global-error.js.
-/

namespace Students

/-- JS runtime values: the subset the controller manipulates. -/
inductive JsValue where
  | undefined
  | null
  | bool (b : Bool)
  | num (n : Int)
  | str (s : String)
  | obj (fields : List (String × JsValue))

mutual

/-- Decidable equality for JsValue, written by hand because the deriving
handler does not support this nested inductive. -/
def JsValue.decEq : (a b : JsValue) → Decidable (a = b)
  | .undefined, .undefined => .isTrue rfl
  | .null, .null => .isTrue rfl
  | .bool a, .bool b =>
      if h : a = b then .isTrue (by rw [h])
      else .isFalse (fun hh => h (by cases hh; rfl))
  | .num a, .num b =>
      if h : a = b then .isTrue (by rw [h])
      else .isFalse (fun hh => h (by cases hh; rfl))
  | .str a, .str b =>
      if h : a = b then .isTrue (by rw [h])
      else .isFalse (fun hh => h (by cases hh; rfl))
  | .obj fs, .obj gs =>
      match fieldsDecEq fs gs with
      | .isTrue h => .isTrue (by rw [h])
      | .isFalse h => .isFalse (fun hh => h (by cases hh; rfl))
  | .undefined, .null | .undefined, .bool _ | .undefined, .num _ | .undefined, .str _ | .undefined, .obj _
  | .null, .undefined | .null, .bool _ | .null, .num _ | .null, .str _ | .null, .obj _
  | .bool _, .undefined | .bool _, .null | .bool _, .num _ | .bool _, .str _ | .bool _, .obj _
  | .num _, .undefined | .num _, .null | .num _, .bool _ | .num _, .str _ | .num _, .obj _
  | .str _, .undefined | .str _, .null | .str _, .bool _ | .str _, .num _ | .str _, .obj _
  | .obj _, .undefined | .obj _, .null | .obj _, .bool _ | .obj _, .num _ | .obj _, .str _ =>
      .isFalse (fun h => nomatch h)

/-- Decidable equality of JS object field lists. -/
def fieldsDecEq : (a b : List (String × JsValue)) → Decidable (a = b)
  | [], [] => .isTrue rfl
  | [], _ :: _ => .isFalse (fun h => nomatch h)
  | _ :: _, [] => .isFalse (fun h => nomatch h)
  | (k, v) :: t, (k2, v2) :: t2 =>
      match String.decEq k k2, JsValue.decEq v v2, fieldsDecEq t t2 with
      | .isTrue h1, .isTrue h2, .isTrue h3 => .isTrue (by rw [h1, h2, h3])
      | .isFalse h1, _, _ => .isFalse (fun h => by cases h; exact h1 rfl)
      | _, .isFalse h2, _ => .isFalse (fun h => by cases h; exact h2 rfl)
      | _, _, .isFalse h3 => .isFalse (fun h => by cases h; exact h3 rfl)

end

instance : DecidableEq JsValue := JsValue.decEq

instance {ε α : Type} [DecidableEq ε] [DecidableEq α] : DecidableEq (Except ε α) := fun x y =>
  match x, y with
  | .ok a, .ok b =>
      if h : a = b then .isTrue (by rw [h])
      else .isFalse (fun hh => h (by cases hh; rfl))
  | .error a, .error b =>
      if h : a = b then .isTrue (by rw [h])
      else .isFalse (fun hh => h (by cases hh; rfl))
  | .ok _, .error _ => .isFalse (fun h => nomatch h)
  | .error _, .ok _ => .isFalse (fun h => nomatch h)

/-- The ApiError class: an HTTP status code and a message. -/
structure ApiError where
  statusCode : Nat
  message : String
deriving Repr, DecidableEq

/-- Errors the embedded code can raise: a classified ApiError, or a raw
JS TypeError (the only non-ApiError exception the embedded code raises). -/
inductive JsError where
  | api (e : ApiError)
  | typeError (msg : String)
deriving Repr, DecidableEq

/-- First binding of a key in an object field list. -/
def lookupField : List (String × JsValue) → String → Option JsValue
  | [], _ => none
  | (k, v) :: rest, key => if k == key then some v else lookupField rest key

/-- Property assignment: replace an existing key in place, else append. -/
def setField (fs : List (String × JsValue)) (k : String) (v : JsValue) :
    List (String × JsValue) :=
  if fs.any (fun p => p.1 == k) then
    fs.map (fun p => if p.1 == k then (k, v) else p)
  else fs ++ [(k, v)]

/-- Object.keys semantics for the values the code feeds it. -/
def objectKeys : JsValue → List String
  | .obj fs => fs.map Prod.fst
  | .str s => (s.toList.enum).map (fun p => toString p.1)
  | _ => []

/-- JS truthiness. -/
def JsValue.truthy : JsValue → Bool
  | .undefined => false
  | .null => false
  | .bool b => b
  | .num n => !(n == 0)
  | .str s => !(s == "")
  | .obj _ => true

/-- JS typeof. -/
def JsValue.typeOf : JsValue → String
  | .undefined => "undefined"
  | .null => "object"
  | .bool _ => "boolean"
  | .num _ => "number"
  | .str _ => "string"
  | .obj _ => "object"

/-- Property read `v[k]`: TypeError on undefined/null, the bound value (or
undefined) on objects, undefined on other primitives. -/
def JsValue.getField : JsValue → String → Except JsError JsValue
  | .undefined, k =>
      .error (.typeError ("Cannot read properties of undefined (reading " ++ k ++ ")"))
  | .null, k =>
      .error (.typeError ("Cannot read properties of null (reading " ++ k ++ ")"))
  | .obj fs, k => .ok ((lookupField fs k).getD .undefined)
  | _, _ => .ok .undefined

/-- String content of a string value (only used under a typeof guard). -/
def JsValue.asStr : JsValue → String
  | .str s => s
  | _ => ""

/-- The character class matched by the regex escape \s in JS. -/
def jsIsSpace (c : Char) : Bool :=
  c == ' ' || c == '\t' || c == '\n' || c == '\r' ||
  c == '\u000B' || c == '\u000C' || c == '\u00A0' || c == '\u1680' ||
  (0x2000 ≤ c.toNat && c.toNat ≤ 0x200A) ||
  c == '\u2028' || c == '\u2029' || c == '\u202F' || c == '\u205F' ||
  c == '\u3000' || c == '\uFEFF'

/-- String.prototype.trim: strip leading and trailing JS whitespace. -/
def jsTrim (s : String) : String :=
  (((s.toList.dropWhile jsIsSpace).reverse.dropWhile jsIsSpace).reverse).asString

/-- ToString conversion applied by parseInt to its argument. -/
def jsToString : JsValue → String
  | .undefined => "undefined"
  | .null => "null"
  | .bool true => "true"
  | .bool false => "false"
  | .num n => toString n
  | .str s => s
  | .obj _ => "[object Object]"

/-- Value of a list of decimal digit characters. -/
def digitsToNat (l : List Char) : Nat :=
  l.foldl (fun acc c => acc * 10 + (c.toNat - 48)) 0

/-- parseInt(s, 10): skip whitespace, optional sign, longest digit run;
none models NaN. -/
def parseIntJs (s : String) : Option Int :=
  match s.toList.dropWhile jsIsSpace with
  | '-' :: t =>
      let ds := t.takeWhile Char.isDigit
      if ds.isEmpty then none else some (-(digitsToNat ds : Int))
  | '+' :: t =>
      let ds := t.takeWhile Char.isDigit
      if ds.isEmpty then none else some ((digitsToNat ds : Int))
  | t =>
      let ds := t.takeWhile Char.isDigit
      if ds.isEmpty then none else some ((digitsToNat ds : Int))

/-- Split a character list at its first at-sign: characters before it, and
the remainder when one exists. -/
def splitAtFirstAt : List Char → List Char × Option (List Char)
  | [] => ([], none)
  | c :: t =>
      if c == '@' then ([], some t)
      else
        let r := splitAtFirstAt t
        (c :: r.1, r.2)

/-- No JS whitespace and no at-sign: the class written [^\s@] in the
email regex. -/
def noSpaceNoAt (l : List Char) : Bool :=
  l.all (fun c => !jsIsSpace c && !(c == '@'))

/-- The controller email regex test: the string is a nonempty run of
[^\s@] characters, one at-sign, then a run containing a dot that is
neither its first nor its last character, all of class [^\s@]. -/
def emailRegexTest (s : String) : Bool :=
  match splitAtFirstAt s.toList with
  | (_, none) => false
  | (a, some b) =>
      !a.isEmpty && noSpaceNoAt a && noSpaceNoAt b &&
        b.tail.dropLast.contains '.'

/-- Error thrown by validateIdParam. -/
def invalidIdError : ApiError :=
  ⟨400, "Invalid student ID. ID must be a positive integer."⟩

/-- Error thrown by validateEmail. -/
def invalidEmailError : ApiError :=
  ⟨400, "Invalid email format provided."⟩

/-- Error thrown by validateStudentPayload when the create email is bad. -/
def createEmailError : ApiError :=
  ⟨400, "A non-empty email is required for student creation."⟩

/-- Error thrown by validateStudentPayload when an update email is bad. -/
def updateEmailError : ApiError :=
  ⟨400, "Email must be a non-empty string."⟩

/-- Error thrown by validateStatusPayload when status is missing. -/
def statusRequiredError : ApiError :=
  ⟨400, "Status field is required."⟩

/-- Error thrown by validateStatusPayload when status is not a boolean. -/
def statusNotBooleanError : ApiError :=
  ⟨400, "Status must be a boolean value (true/false)."⟩

/-- Error thrown by validateUserAuthentication. -/
def authRequiredError : ApiError :=
  ⟨401, "User authentication required for this operation."⟩

/-- validateIdParam from students-controller.js: parseInt the raw value in
base 10 and require an integer strictly greater than zero. Like every
controller validator it returns undefined on success. -/
def validateIdParam (id : JsValue) : Except JsError JsValue :=
  match parseIntJs (jsToString id) with
  | none => .error (.api invalidIdError)
  | some n => if n ≤ 0 then .error (.api invalidIdError) else .ok .undefined

/-- validateEmail from students-controller.js: test the argument against
the email regex; no trimming and no return value of its own. -/
def validateEmail (email : String) : Except JsError JsValue :=
  if emailRegexTest email then .ok .undefined else .error (.api invalidEmailError)

/-- validateStudentPayload from students-controller.js: non-empty body;
for create a truthy string email that trims non-empty and passes
validateEmail; for update the same checks but only when body.email is
truthy. -/
def validateStudentPayload (body : JsValue) (operation : String) :
    Except JsError JsValue :=
  if body.truthy = false || (objectKeys body).length == 0 then
    .error (.api ⟨400, "Student data is required for " ++ operation ++ " operation."⟩)
  else if operation == "create" then
    match body.getField "email" with
    | .error e => .error e
    | .ok email =>
      if email.truthy = false then .error (.api createEmailError)
      else if email.typeOf != "string" then .error (.api createEmailError)
      else if jsTrim email.asStr == "" then .error (.api createEmailError)
      else validateEmail (jsTrim email.asStr)
  else if operation == "update" then
    match body.getField "email" with
    | .error e => .error e
    | .ok email =>
      if email.truthy = false then .ok .undefined
      else if email.typeOf != "string" then .error (.api updateEmailError)
      else if jsTrim email.asStr == "" then .error (.api updateEmailError)
      else validateEmail (jsTrim email.asStr)
  else .ok .undefined

/-- validateStatusPayload from students-controller.js: body.status must not
be undefined or null, and must be strictly boolean. Reading body.status on
an undefined or null body raises a TypeError, exactly as in JS. -/
def validateStatusPayload (body : JsValue) : Except JsError JsValue :=
  match body.getField "status" with
  | .error e => .error e
  | .ok s =>
    match s with
    | .undefined => .error (.api statusRequiredError)
    | .null => .error (.api statusRequiredError)
    | s2 =>
      if s2.typeOf != "boolean" then .error (.api statusNotBooleanError)
      else .ok .undefined

/-- validateUserAuthentication from students-controller.js: user and
user.id must both be truthy. -/
def validateUserAuthentication (user : JsValue) : Except JsError JsValue :=
  if user.truthy = false then .error (.api authRequiredError)
  else
    match user.getField "id" with
    | .error e => .error e
    | .ok uid =>
      if uid.truthy = false then .error (.api authRequiredError)
      else .ok .undefined

/-- An inbound Express request as the handlers see it: the route params,
the parsed body, and the identity the auth middleware attached (if any). -/
structure Request where
  params : JsValue
  body : JsValue
  user : JsValue

/-- The rendered HTTP response: status code, and the JSON body if any
(res.end() sends none). -/
structure Response where
  status : Nat
  body : Option JsValue
deriving DecidableEq

/-- A service function at the controller boundary: takes the value the
controller passes and yields a result or throws. -/
def Service : Type := JsValue → Except JsError JsValue

/-- Calling .trim() on a value: only strings have it. -/
def jsCallTrim : JsValue → Except JsError JsValue
  | .str s => .ok (.str (jsTrim s))
  | v => .error (.typeError ("trim is not a function on " ++ v.typeOf))

/-- Object value under a literal key, undefined when absent. -/
def fieldsGet (fs : List (String × JsValue)) (k : String) : JsValue :=
  (lookupField fs k).getD .undefined

/-- Spread into an object literal: fold the source fields (or the index
properties of a string) over the accumulated fields. -/
def spreadFields (base : List (String × JsValue)) : JsValue → List (String × JsValue)
  | .obj fs => fs.foldl (fun acc p => setField acc p.1 p.2) base
  | .str s =>
      (s.toList.enum).foldl
        (fun acc p => setField acc (toString p.1) (.str (String.singleton p.2))) base
  | _ => base

/-- handleAddStudent from students-controller.js: validate the create
payload, then pass the body with a trimmed email to addNewStudent and
answer 201. -/
def handleAddStudent (svc : Service) (req : Request) : Except JsError Response :=
  match validateStudentPayload req.body "create" with
  | .error e => .error e
  | .ok _ =>
    match req.body.getField "email" with
    | .error e => .error e
    | .ok emailv =>
      match jsCallTrim emailv with
      | .error e => .error e
      | .ok trimmed =>
        match svc (.obj (setField (spreadFields [] req.body) "email" trimmed)) with
        | .error e => .error e
        | .ok result =>
            .ok ⟨201, some (.obj [("success", .bool true), ("data", result)])⟩

/-- handleUpdateStudent from students-controller.js: validate the id param
and the update payload, build the object literal containing id followed by
the spread request body, trim a truthy email, call updateStudent, answer
200. -/
def handleUpdateStudent (svc : Service) (req : Request) : Except JsError Response :=
  match req.params.getField "id" with
  | .error e => .error e
  | .ok id =>
    match validateIdParam id with
    | .error e => .error e
    | .ok _ =>
      match validateStudentPayload req.body "update" with
      | .error e => .error e
      | .ok _ =>
        let payload0 := spreadFields [("id", id)] req.body
        let finish := fun (payload : List (String × JsValue)) =>
          match svc (.obj payload) with
          | .error e => .error e
          | .ok result =>
              Except.ok (⟨200, some (.obj [("success", .bool true), ("data", result)])⟩ : Response)
        if (fieldsGet payload0 "email").truthy then
          match jsCallTrim (fieldsGet payload0 "email") with
          | .error e => .error e
          | .ok trimmed => finish (setField payload0 "email" trimmed)
        else finish payload0

/-- handleGetStudentDetail from students-controller.js: validate the id
param, call getStudentDetail with the raw param, answer 200. -/
def handleGetStudentDetail (svc : Service) (req : Request) : Except JsError Response :=
  match req.params.getField "id" with
  | .error e => .error e
  | .ok id =>
    match validateIdParam id with
    | .error e => .error e
    | .ok _ =>
      match svc id with
      | .error e => .error e
      | .ok student =>
          .ok ⟨200, some (.obj [("success", .bool true), ("data", student)])⟩

/-- handleStudentStatus from students-controller.js: validate the id param,
the status payload, then the caller identity; call setStudentStatus with
userId, status and reviewerId; answer 200. -/
def handleStudentStatus (svc : Service) (req : Request) : Except JsError Response :=
  match req.params.getField "id" with
  | .error e => .error e
  | .ok id =>
    match validateIdParam id with
    | .error e => .error e
    | .ok _ =>
      match validateStatusPayload req.body with
      | .error e => .error e
      | .ok _ =>
        match validateUserAuthentication req.user with
        | .error e => .error e
        | .ok _ =>
          match req.body.getField "status", req.user.getField "id" with
          | .error e, _ => .error e
          | _, .error e => .error e
          | .ok st, .ok rid =>
            match svc (.obj [("userId", id), ("status", st), ("reviewerId", rid)]) with
            | .error e => .error e
            | .ok result =>
                .ok ⟨200, some (.obj [("success", .bool true), ("data", result)])⟩

/-- handleDeleteStudent from students-controller.js: validate the id param
and the caller identity, call deleteStudent with the raw param, answer 204
with no body. -/
def handleDeleteStudent (svc : Service) (req : Request) : Except JsError Response :=
  match req.params.getField "id" with
  | .error e => .error e
  | .ok id =>
    match validateIdParam id with
    | .error e => .error e
    | .ok _ =>
      match validateUserAuthentication req.user with
      | .error e => .error e
      | .ok _ =>
        match svc id with
        | .error e => .error e
        | .ok _ => .ok ⟨204, none⟩

/-- handleGlobalError from handle-global-error.js: an ApiError keeps its
own status code and message; anything else becomes a 500 with the fixed
generic body. -/
def handleGlobalError : JsError → Response
  | .api e => ⟨e.statusCode, some (.obj [("error", .str e.message)])⟩
  | .typeError _ => ⟨500, some (.obj [("error", .str "Internal server error")])⟩

/-- The express-async-handler plus error middleware pipeline: a value
thrown by the handler is forwarded to handleGlobalError. -/
def runHandler (h : Request → Except JsError Response) (req : Request) : Response :=
  match h req with
  | .ok r => r
  | .error e => handleGlobalError e

/-- Modelled from the spec: the constant ERROR_MESSAGES.DATABASE_ERROR.
The constants module is not part of the sources given; per the spec it is
a fixed generic text that does not depend on, and does not repeat, the
raw storage error. -/
def DATABASE_ERROR : String := "A database error occurred."

/-- processDBRequest from process-db-request.js: a query result passes
through; any exception from db.query is re-thrown as ApiError 500 with
the fixed DATABASE_ERROR message (the raw error text is only logged). -/
def processDBRequest (dbResult : Except String JsValue) : Except JsError JsValue :=
  match dbResult with
  | .ok r => .ok r
  | .error _ => .error (.api ⟨500, DATABASE_ERROR⟩)

/-! Helper lemmas shared by the claim theorems. -/

/-- The value of the email property of a body that is not undefined or
null (proof helper). -/
def emailOf : JsValue → JsValue
  | .obj fs => (lookupField fs "email").getD .undefined
  | _ => .undefined

theorem getField_error_typeError (v : JsValue) (k : String) (e : JsError)
    (h : v.getField k = .error e) : ∃ m, e = .typeError m := by
  cases v <;> simp [JsValue.getField] at h <;> exact ⟨_, h.symm⟩

theorem validateIdParam_cases (v : JsValue) :
    validateIdParam v = .ok .undefined ∨ validateIdParam v = .error (.api invalidIdError) := by
  unfold validateIdParam
  rcases parseIntJs (jsToString v) with _ | n
  · right; rfl
  · by_cases h : n ≤ 0 <;> simp [h]

theorem validateEmail_cases (s : String) :
    validateEmail s = .ok .undefined ∨ validateEmail s = .error (.api invalidEmailError) := by
  unfold validateEmail
  split <;> simp

theorem validateUserAuthentication_cases (u : JsValue) :
    validateUserAuthentication u = .ok .undefined ∨
    validateUserAuthentication u = .error (.api authRequiredError) := by
  cases u with
  | undefined => right; rfl
  | null => right; rfl
  | bool b => cases b <;> simp [validateUserAuthentication, JsValue.truthy, JsValue.getField]
  | num n =>
      by_cases h : n = 0 <;>
        simp [validateUserAuthentication, JsValue.truthy, JsValue.getField, h]
  | str s =>
      by_cases h : s = "" <;>
        simp [validateUserAuthentication, JsValue.truthy, JsValue.getField, h]
  | obj fs =>
      simp only [validateUserAuthentication, JsValue.truthy, JsValue.getField]
      split <;> simp

theorem validateStatusPayload_cases (b : JsValue) (hu : b ≠ .undefined) (hn : b ≠ .null) :
    validateStatusPayload b = .ok .undefined ∨
    validateStatusPayload b = .error (.api statusRequiredError) ∨
    validateStatusPayload b = .error (.api statusNotBooleanError) := by
  cases b with
  | undefined => exact absurd rfl hu
  | null => exact absurd rfl hn
  | bool v => right; left; rfl
  | num n => right; left; rfl
  | str s => right; left; rfl
  | obj fs =>
      simp only [validateStatusPayload, JsValue.getField]
      rcases lookupField fs "status" with _ | v
      · right; left; rfl
      · cases v <;> simp [JsValue.typeOf]

theorem validateStudentPayload_total (b : JsValue) (op : String) :
    validateStudentPayload b op = .ok .undefined ∨
    ∃ m, validateStudentPayload b op = .error (.api ⟨400, m⟩) := by
  unfold validateStudentPayload
  split
  · right; exact ⟨_, rfl⟩
  · rename_i hguard
    have htr : b.truthy = true := by
      rcases h : b.truthy
      · exact absurd (by simp [h]) hguard
      · rfl
    have hget : b.getField "email" = .ok (emailOf b) := by
      cases b with
      | undefined => simp [JsValue.truthy] at htr
      | null => simp [JsValue.truthy] at htr
      | bool v => rfl
      | num n => rfl
      | str s => rfl
      | obj fs => rfl
    split
    · rw [hget]
      split
      · rename_i e heq; simp at heq
      · rename_i email heq
        injection heq with h2
        subst h2
        split
        · right; exact ⟨_, rfl⟩
        · split
          · right; exact ⟨_, rfl⟩
          · split
            · right; exact ⟨_, rfl⟩
            · rcases validateEmail_cases (jsTrim (emailOf b).asStr) with h | h
              · left; exact h
              · right; exact ⟨_, h⟩
    · split
      · rw [hget]
        split
        · rename_i e heq; simp at heq
        · rename_i email heq
          injection heq with h2
          subst h2
          split
          · left; rfl
          · split
            · right; exact ⟨_, rfl⟩
            · split
              · right; exact ⟨_, rfl⟩
              · rcases validateEmail_cases (jsTrim (emailOf b).asStr) with h | h
                · left; exact h
                · right; exact ⟨_, h⟩
      · left; rfl

theorem splitAtFirstAt_no_at (l : List Char) (h : '@' ∉ l) :
    splitAtFirstAt l = (l, none) := by
  induction l with
  | nil => rfl
  | cons c t ih =>
      simp only [List.mem_cons, not_or] at h
      have hc : (c == '@') = false := beq_eq_false_iff_ne.mpr (fun e => h.1 e.symm)
      simp [splitAtFirstAt, hc, ih h.2]

theorem splitAtFirstAt_append (a b : List Char) (ha : '@' ∉ a) :
    splitAtFirstAt (a ++ '@' :: b) = (a, some b) := by
  induction a with
  | nil => simp [splitAtFirstAt]
  | cons c t ih =>
      simp only [List.mem_cons, not_or] at ha
      have hc : (c == '@') = false := beq_eq_false_iff_ne.mpr (fun e => ha.1 e.symm)
      simp [splitAtFirstAt, hc, ih ha.2]

theorem validateEmail_fails_without_at (s : String) (h : '@' ∉ s.toList) :
    validateEmail s = .error (.api invalidEmailError) := by
  unfold validateEmail emailRegexTest
  rw [splitAtFirstAt_no_at s.toList h]
  rfl

theorem validateEmail_fails_no_dot_after_at (s : String) (a b : List Char)
    (hs : s.toList = a ++ '@' :: b) (ha : '@' ∉ a) (hb : '.' ∉ b) :
    validateEmail s = .error (.api invalidEmailError) := by
  unfold validateEmail emailRegexTest
  rw [hs, splitAtFirstAt_append a b ha]
  have hdl : (b.tail.dropLast.contains '.') = false := by
    rcases hc : b.tail.dropLast.contains '.'
    · rfl
    · exfalso
      have hmem : '.' ∈ b.tail.dropLast := by
        simpa [List.contains, List.elem_iff] using hc
      exact hb (List.tail_subset b (List.mem_of_mem_dropLast hmem))
  simp [hdl]
  intro _ _ _
  exact fun hm => hb (List.tail_subset b (List.mem_of_mem_dropLast hm))

/-! The claims. -/

/-- C1: the claim says the student identifier used by updateStudent comes
exclusively from the resource path parameter even when the body carries an
id field. The code builds the payload as the object literal with id first
and the spread body second, so a body id overrides the path id: with path
id "1" and body id 2, updateStudent receives id 2. The echo service makes
the payload visible in the response data. This contradicts the code
comment (URL parameter as the single source of truth) and the claim. -/
theorem c1_update_payload_id_taken_from_body :
    handleUpdateStudent Except.ok
        ⟨.obj [("id", .str "1")], .obj [("id", .num 2), ("email", .str "x@y.com")], .undefined⟩ =
      Except.ok ⟨200, some (.obj [("success", .bool true),
        ("data", .obj [("id", .num 2), ("email", .str "x@y.com")])])⟩ := by
  decide

/-- C2 counterexample: the claim says a non-integer (float) numeral fails
validateIdParam, but parseInt truncates "3.7" to 3 and validation
succeeds. -/
theorem c2_float_numeral_accepted :
    validateIdParam (.str "3.7") = Except.ok JsValue.undefined := by decide

/-- C2 amended: validateIdParam succeeds exactly when parseInt of the raw
value (base 10) yields an integer greater than 0 — so float numerals with
a positive integer part are accepted via truncation — and every failure is
the InvalidArgument ApiError with code 400. -/
theorem c2_id_validation_characterized (v : JsValue) :
    (validateIdParam v = .ok .undefined ↔
      ∃ n : Int, parseIntJs (jsToString v) = some n ∧ 0 < n) ∧
    (validateIdParam v = .ok .undefined ∨
      validateIdParam v = .error (.api invalidIdError)) ∧
    invalidIdError.statusCode = 400 := by
  refine ⟨?_, validateIdParam_cases v, rfl⟩
  unfold validateIdParam
  rcases h : parseIntJs (jsToString v) with _ | n
  · simp
  · by_cases hn : n ≤ 0 <;> simp [hn]
    all_goals omega

/-- C7: every storage exception is re-classified by processDBRequest as an
ApiError with code 500 whose message is the fixed DATABASE_ERROR constant,
independent of the raw storage error text; the global error middleware
renders a classified ApiError with its own status code and an error body
carrying its message, and renders any non-ApiError failure as 500 with
the fixed body. -/
theorem c7_storage_errors_wrapped_and_rendered :
    (∀ raw : String, processDBRequest (.error raw) = .error (.api ⟨500, DATABASE_ERROR⟩)) ∧
    (∀ a : ApiError,
      handleGlobalError (.api a) = ⟨a.statusCode, some (.obj [("error", .str a.message)])⟩) ∧
    (∀ m : String,
      handleGlobalError (.typeError m) =
        ⟨500, some (.obj [("error", .str "Internal server error")])⟩) :=
  ⟨fun _ => rfl, fun _ => rfl, fun _ => rfl⟩

/-- C3 counterexample: the claim says validateStatusPayload with a true
boolean status returns true; the function has no return statement, so it
succeeds with the value undefined, not true. -/
theorem c3_validator_returns_undefined_not_true :
    validateStatusPayload (.obj [("status", .bool true)]) = Except.ok JsValue.undefined ∧
    (Except.ok JsValue.undefined : Except JsError JsValue) ≠ Except.ok (JsValue.bool true) := by
  decide

/-- C3 amended: for every body whose status property reads without a
TypeError, a missing (undefined) or null status fails with the
InvalidArgument ApiError "Status field is required.", a non-boolean status
fails with the distinct InvalidArgument ApiError message about booleans
(both code 400), and a strictly boolean status succeeds — returning
undefined (the handler reads the status from the body, not from the
validator). -/
theorem c3_status_validation (body s : JsValue)
    (h : body.getField "status" = Except.ok s) :
    ((s = .undefined ∨ s = .null) →
        validateStatusPayload body = .error (.api statusRequiredError)) ∧
    (s ≠ .undefined → s ≠ .null → s.typeOf ≠ "boolean" →
        validateStatusPayload body = .error (.api statusNotBooleanError)) ∧
    (∀ b : Bool, s = .bool b → validateStatusPayload body = Except.ok JsValue.undefined) ∧
    statusRequiredError.message ≠ statusNotBooleanError.message ∧
    statusRequiredError.statusCode = 400 ∧ statusNotBooleanError.statusCode = 400 := by
  unfold validateStatusPayload
  rw [h]
  refine ⟨?_, ?_, ?_, by decide, rfl, rfl⟩
  · rintro (rfl | rfl) <;> rfl
  · intro h1 h2 h3
    cases s with
    | undefined => exact absurd rfl h1
    | null => exact absurd rfl h2
    | bool b => exact absurd rfl h3
    | num n => rfl
    | str v => rfl
    | obj fs => rfl
  · rintro b rfl; rfl

/-- C3 witness: the amended theorem applied to the body with status true. -/
theorem c3_status_validation_witness :
    validateStatusPayload (.obj [("status", .bool true)]) = Except.ok JsValue.undefined :=
  (c3_status_validation (.obj [("status", .bool true)]) (.bool true) rfl).2.2.1 true rfl

/-- C4 counterexample: the claim says validateEmail trims and returns the
normalized email, so validateEmail("  a@b.com  ") returns "a@b.com"; in
the code validateEmail does not trim, and the untrimmed string fails the
regex (whitespace is excluded), so the call throws InvalidArgument. -/
theorem c4_validateEmail_does_not_trim :
    validateEmail "  a@b.com  " = Except.error (.api invalidEmailError) := by decide

/-- C4 amended: validateEmail itself neither trims nor returns a value: it
fails with InvalidArgument for every string without an at-sign, and for
every string whose part after the first at-sign has no dot; trimming is
performed by the callers — validateStudentPayload validates the trimmed
email, and handleAddStudent forwards the trimmed email to the service, so
the create pipeline on email "  a@b.com  " succeeds and the service
receives "a@b.com". -/
theorem c4_email_validation_characterized :
    (∀ s : String, '@' ∉ s.toList →
        validateEmail s = .error (.api invalidEmailError)) ∧
    (∀ (s : String) (a b : List Char), s.toList = a ++ '@' :: b → '@' ∉ a → '.' ∉ b →
        validateEmail s = .error (.api invalidEmailError)) ∧
    invalidEmailError.statusCode = 400 ∧
    validateStudentPayload (.obj [("email", .str "  a@b.com  ")]) "create" =
      Except.ok JsValue.undefined ∧
    handleAddStudent Except.ok
        ⟨.obj [], .obj [("email", .str "  a@b.com  "), ("name", .str "A")], .undefined⟩ =
      Except.ok ⟨201, some (.obj [("success", .bool true),
        ("data", .obj [("email", .str "a@b.com"), ("name", .str "A")])])⟩ :=
  ⟨validateEmail_fails_without_at, validateEmail_fails_no_dot_after_at,
    rfl, by decide, by decide⟩

/-- C4 witness: the amended theorem applied to a string without an at-sign
and to a string with no dot after the at-sign. -/
theorem c4_email_validation_witness :
    validateEmail "userdomain" = Except.error (.api invalidEmailError) ∧
    validateEmail "a.b@com" = Except.error (.api invalidEmailError) :=
  ⟨c4_email_validation_characterized.1 "userdomain" (by decide),
   c4_email_validation_characterized.2.1 "a.b@com" ['a', '.', 'b'] ['c', 'o', 'm']
     (by decide) (by decide) (by decide)⟩

theorem statusHandler_auth_indep (req : Request)
    (hauth : validateUserAuthentication req.user = .error (.api authRequiredError)) :
    ∃ e, ∀ svc : Service, handleStudentStatus svc req = .error e := by
  rcases hid : req.params.getField "id" with e | idv
  · exact ⟨e, fun svc => by simp [handleStudentStatus, hid]⟩
  · rcases hvi : validateIdParam idv with e | v
    · exact ⟨e, fun svc => by simp [handleStudentStatus, hid, hvi]⟩
    · rcases hst : validateStatusPayload req.body with e | v2
      · exact ⟨e, fun svc => by simp [handleStudentStatus, hid, hvi, hst]⟩
      · exact ⟨.api authRequiredError,
          fun svc => by simp [handleStudentStatus, hid, hvi, hst, hauth]⟩

theorem deleteStudent_ok_form (svc : Service) (req : Request) (r : Response)
    (h : handleDeleteStudent svc req = .ok r) : r = ⟨204, none⟩ := by
  unfold handleDeleteStudent at h
  split at h
  · exact absurd h (by simp)
  · split at h
    · exact absurd h (by simp)
    · split at h
      · exact absurd h (by simp)
      · split at h
        · exact absurd h (by simp)
        · injection h with h2; exact h2.symm

/-- C5 counterexample: the claim says every status-set request without a
caller identity fails with Unauthenticated (401); but validation runs
first, so such a request with an invalid id fails with InvalidArgument
(400) instead. -/
theorem c5_invalid_id_beats_missing_identity :
    handleStudentStatus Except.ok
        ⟨.obj [("id", .str "abc")], .obj [("status", .bool true)], .undefined⟩ =
      Except.error (.api invalidIdError) ∧
    invalidIdError.statusCode = 400 ∧ authRequiredError.statusCode = 401 := by
  decide

/-- C5 amended: on every status-set request on which the authentication
check fails, the handler throws before the service is invoked — the
outcome is the same for every service, and it is an error; when the id and
status validations pass it is exactly the Unauthenticated (401) ApiError;
and a falsy user always fails that check. -/
theorem c5_unauthenticated_blocks_service (svc1 svc2 : Service) (req : Request)
    (hauth : validateUserAuthentication req.user = .error (.api authRequiredError)) :
    handleStudentStatus svc1 req = handleStudentStatus svc2 req ∧
    (∃ e, handleStudentStatus svc1 req = .error e) ∧
    (∀ idv, req.params.getField "id" = .ok idv → validateIdParam idv = .ok .undefined →
        validateStatusPayload req.body = .ok .undefined →
        handleStudentStatus svc1 req = .error (.api authRequiredError)) ∧
    (∀ u : JsValue, u.truthy = false →
        validateUserAuthentication u = .error (.api authRequiredError)) := by
  obtain ⟨e, he⟩ := statusHandler_auth_indep req hauth
  refine ⟨(he svc1).trans (he svc2).symm, ⟨e, he svc1⟩, ?_, ?_⟩
  · intro idv hid hvi hst
    simp [handleStudentStatus, hid, hvi, hst, hauth]
  · intro u hu
    simp [validateUserAuthentication, hu]

/-- C5 witness: the amended theorem applied to a valid status-set request
carrying no user identity. -/
theorem c5_unauthenticated_witness :
    handleStudentStatus Except.ok
        ⟨.obj [("id", .str "7")], .obj [("status", .bool false)], .undefined⟩ =
      Except.error (.api authRequiredError) :=
  (c5_unauthenticated_blocks_service Except.ok Except.ok
      ⟨.obj [("id", .str "7")], .obj [("status", .bool false)], .undefined⟩
      (by decide)).2.2.1 (.str "7") rfl (by decide) (by decide)

/-- C6 counterexample: the claim says the detail handler responds only
with 200 or 404, but an invalid id parameter makes it respond 400 (a
behavior the repository test suite itself asserts). -/
theorem c6_detail_handler_responds_400 :
    runHandler (handleGetStudentDetail Except.ok)
        ⟨.obj [("id", .str "abc")], .obj [], .undefined⟩ =
      ⟨400, some (.obj [("error",
        .str "Invalid student ID. ID must be a positive integer.")])⟩ := by
  decide

/-- C6 amended: for every request, and every service whose failures are
classified ApiErrors with code 404 or 500 (the NotFound and
StorageFailure kinds of the taxonomy), the detail handler renders a
status in 200/400/404/500 and the delete handler a status in
204/400/401/404/500; every successful delete response is 204 with no
body. -/
theorem c6_status_code_sets (svc : Service) (req : Request)
    (hsvc : ∀ p e, svc p = .error e →
      ∃ a, e = .api a ∧ (a.statusCode = 404 ∨ a.statusCode = 500)) :
    ((runHandler (handleGetStudentDetail svc) req).status = 200 ∨
     (runHandler (handleGetStudentDetail svc) req).status = 400 ∨
     (runHandler (handleGetStudentDetail svc) req).status = 404 ∨
     (runHandler (handleGetStudentDetail svc) req).status = 500) ∧
    ((runHandler (handleDeleteStudent svc) req).status = 204 ∨
     (runHandler (handleDeleteStudent svc) req).status = 400 ∨
     (runHandler (handleDeleteStudent svc) req).status = 401 ∨
     (runHandler (handleDeleteStudent svc) req).status = 404 ∨
     (runHandler (handleDeleteStudent svc) req).status = 500) ∧
    (∀ r, handleDeleteStudent svc req = .ok r → r = ⟨204, none⟩) := by
  refine ⟨?_, ?_, fun r h => deleteStudent_ok_form svc req r h⟩
  · rcases hid : req.params.getField "id" with e | idv
    · obtain ⟨m, rfl⟩ := getField_error_typeError _ _ _ hid
      simp [runHandler, handleGetStudentDetail, handleGlobalError, hid]
    · rcases validateIdParam_cases idv with hvi | hvi
      · rcases hs : svc idv with e | v
        · obtain ⟨a, rfl, hc⟩ := hsvc _ _ hs
          rcases hc with hc | hc <;>
            simp [runHandler, handleGetStudentDetail, handleGlobalError, hid, hvi, hs, hc]
        · simp [runHandler, handleGetStudentDetail, handleGlobalError, hid, hvi, hs]
      · simp [runHandler, handleGetStudentDetail, handleGlobalError, hid, hvi,
          invalidIdError]
  · rcases hid : req.params.getField "id" with e | idv
    · obtain ⟨m, rfl⟩ := getField_error_typeError _ _ _ hid
      simp [runHandler, handleDeleteStudent, handleGlobalError, hid]
    · rcases validateIdParam_cases idv with hvi | hvi
      · rcases validateUserAuthentication_cases req.user with hau | hau
        · rcases hs : svc idv with e | v
          · obtain ⟨a, rfl, hc⟩ := hsvc _ _ hs
            rcases hc with hc | hc <;>
              simp [runHandler, handleDeleteStudent, handleGlobalError, hid, hvi, hau, hs, hc]
          · simp [runHandler, handleDeleteStudent, handleGlobalError, hid, hvi, hau, hs]
        · simp [runHandler, handleDeleteStudent, handleGlobalError, hid, hvi, hau,
            authRequiredError]
      · simp [runHandler, handleDeleteStudent, handleGlobalError, hid, hvi,
          invalidIdError]

/-- C6 witness: the amended theorem applied to a request with id "1", an
authenticated user, and the service that always throws NotFound. -/
theorem c6_status_code_sets_witness :
    ((runHandler (handleGetStudentDetail
          (fun _ => Except.error (.api ⟨404, "Student not found"⟩)))
        ⟨.obj [("id", .str "1")], .obj [], .obj [("id", .num 9)]⟩).status = 200 ∨
     (runHandler (handleGetStudentDetail
          (fun _ => Except.error (.api ⟨404, "Student not found"⟩)))
        ⟨.obj [("id", .str "1")], .obj [], .obj [("id", .num 9)]⟩).status = 400 ∨
     (runHandler (handleGetStudentDetail
          (fun _ => Except.error (.api ⟨404, "Student not found"⟩)))
        ⟨.obj [("id", .str "1")], .obj [], .obj [("id", .num 9)]⟩).status = 404 ∨
     (runHandler (handleGetStudentDetail
          (fun _ => Except.error (.api ⟨404, "Student not found"⟩)))
        ⟨.obj [("id", .str "1")], .obj [], .obj [("id", .num 9)]⟩).status = 500) ∧
    ((runHandler (handleDeleteStudent
          (fun _ => Except.error (.api ⟨404, "Student not found"⟩)))
        ⟨.obj [("id", .str "1")], .obj [], .obj [("id", .num 9)]⟩).status = 204 ∨
     (runHandler (handleDeleteStudent
          (fun _ => Except.error (.api ⟨404, "Student not found"⟩)))
        ⟨.obj [("id", .str "1")], .obj [], .obj [("id", .num 9)]⟩).status = 400 ∨
     (runHandler (handleDeleteStudent
          (fun _ => Except.error (.api ⟨404, "Student not found"⟩)))
        ⟨.obj [("id", .str "1")], .obj [], .obj [("id", .num 9)]⟩).status = 401 ∨
     (runHandler (handleDeleteStudent
          (fun _ => Except.error (.api ⟨404, "Student not found"⟩)))
        ⟨.obj [("id", .str "1")], .obj [], .obj [("id", .num 9)]⟩).status = 404 ∨
     (runHandler (handleDeleteStudent
          (fun _ => Except.error (.api ⟨404, "Student not found"⟩)))
        ⟨.obj [("id", .str "1")], .obj [], .obj [("id", .num 9)]⟩).status = 500) ∧
    (∀ r, handleDeleteStudent
          (fun _ => Except.error (.api ⟨404, "Student not found"⟩))
          ⟨.obj [("id", .str "1")], .obj [], .obj [("id", .num 9)]⟩ = .ok r →
        r = ⟨204, none⟩) :=
  c6_status_code_sets (fun _ => Except.error (.api ⟨404, "Student not found"⟩))
    ⟨.obj [("id", .str "1")], .obj [], .obj [("id", .num 9)]⟩
    (fun p e h => by
      injection h with h2
      exact ⟨⟨404, "Student not found"⟩, h2.symm, Or.inl rfl⟩)

/-- C9 counterexample: the claim says every validator only ever throws an
ApiError of its declared kind; validateStatusPayload on a missing
(undefined or null) body instead raises a raw TypeError reading
body.status. -/
theorem c9_statusPayload_raises_typeError :
    validateStatusPayload .undefined =
      Except.error (.typeError "Cannot read properties of undefined (reading status)") ∧
    validateStatusPayload .null =
      Except.error (.typeError "Cannot read properties of null (reading status)") := by
  decide

/-- C9 amended: each validator is a pure function that, on every input,
either succeeds or throws the ApiError of its declared kind (400; 401 for
the authentication check) — except validateStatusPayload, which raises a
TypeError when the body itself is undefined or null, and is total with
ApiError 400 on every other body. -/
theorem c9_validators_total (v : JsValue) (op : String) :
    (validateIdParam v = .ok .undefined ∨
      validateIdParam v = .error (.api invalidIdError)) ∧
    (validateStudentPayload v op = .ok .undefined ∨
      ∃ m, validateStudentPayload v op = .error (.api ⟨400, m⟩)) ∧
    (∀ s : String, validateEmail s = .ok .undefined ∨
      validateEmail s = .error (.api invalidEmailError)) ∧
    (v ≠ .undefined → v ≠ .null →
      (validateStatusPayload v = .ok .undefined ∨
       validateStatusPayload v = .error (.api statusRequiredError) ∨
       validateStatusPayload v = .error (.api statusNotBooleanError))) ∧
    (validateUserAuthentication v = .ok .undefined ∨
      validateUserAuthentication v = .error (.api authRequiredError)) :=
  ⟨validateIdParam_cases v, validateStudentPayload_total v op, validateEmail_cases,
   fun h1 h2 => validateStatusPayload_cases v h1 h2,
   validateUserAuthentication_cases v⟩

/-- C9 witness: the amended theorem applied to a body object carrying a
boolean status. -/
theorem c9_validators_total_witness :
    validateStatusPayload (.obj [("status", .bool false)]) = Except.ok JsValue.undefined ∨
    validateStatusPayload (.obj [("status", .bool false)]) =
      Except.error (.api statusRequiredError) ∨
    validateStatusPayload (.obj [("status", .bool false)]) =
      Except.error (.api statusNotBooleanError) :=
  (c9_validators_total (.obj [("status", .bool false)]) "create").2.2.2.1
    (by decide) (by decide)

/-- C10: in the status-set handler, validation strictly precedes the
authentication check: an invalid id fails with the InvalidArgument id
error and an invalid status payload fails with its InvalidArgument
ApiError whatever the attached user is, and the Unauthenticated error is
thrown only once the id and status validations have succeeded. -/
theorem c10_validation_precedes_auth (svc : Service) (req : Request) (idv : JsValue)
    (hid : req.params.getField "id" = Except.ok idv) :
    (validateIdParam idv = .error (.api invalidIdError) →
        handleStudentStatus svc req = .error (.api invalidIdError)) ∧
    (∀ a : ApiError, validateIdParam idv = .ok .undefined →
        validateStatusPayload req.body = .error (.api a) →
        handleStudentStatus svc req = .error (.api a)) ∧
    (validateIdParam idv = .ok .undefined → validateStatusPayload req.body = .ok .undefined →
        validateUserAuthentication req.user = .error (.api authRequiredError) →
        handleStudentStatus svc req = .error (.api authRequiredError)) := by
  refine ⟨?_, ?_, ?_⟩
  · intro h; simp [handleStudentStatus, hid, h]
  · intro a h1 h2; simp [handleStudentStatus, hid, h1, h2]
  · intro h1 h2 h3; simp [handleStudentStatus, hid, h1, h2, h3]

/-- C10 witness: the theorem applied to three requests with no user
attached: invalid id gives 400, non-boolean status gives 400, and only a
fully validated request gives 401. -/
theorem c10_validation_precedes_auth_witness :
    handleStudentStatus Except.ok
        ⟨.obj [("id", .str "0")], .obj [], .undefined⟩ =
      Except.error (.api invalidIdError) ∧
    handleStudentStatus Except.ok
        ⟨.obj [("id", .str "5")], .obj [("status", .str "true")], .undefined⟩ =
      Except.error (.api statusNotBooleanError) ∧
    handleStudentStatus Except.ok
        ⟨.obj [("id", .str "5")], .obj [("status", .bool true)], .undefined⟩ =
      Except.error (.api authRequiredError) :=
  ⟨(c10_validation_precedes_auth Except.ok
      ⟨.obj [("id", .str "0")], .obj [], .undefined⟩ (.str "0") rfl).1 (by decide),
   (c10_validation_precedes_auth Except.ok
      ⟨.obj [("id", .str "5")], .obj [("status", .str "true")], .undefined⟩ (.str "5") rfl).2.1
     statusNotBooleanError (by decide) (by decide),
   (c10_validation_precedes_auth Except.ok
      ⟨.obj [("id", .str "5")], .obj [("status", .bool true)], .undefined⟩ (.str "5") rfl).2.2
     (by decide) (by decide) (by decide)⟩

theorem keysLength_ne_zero (fs : List (String × JsValue)) (hfs : fs ≠ []) :
    ((objectKeys (JsValue.obj fs)).length == 0) = false := by
  simp [objectKeys, beq_eq_false_iff_ne, List.length_eq_zero, hfs]

/-- C8 counterexample: the claim says any present email that is not a
valid non-empty email string is rejected by update validation; but the
update branch only checks a truthy email, so a present empty-string email
— which validateEmail itself would reject — passes validation. -/
theorem c8_falsy_email_not_validated :
    validateStudentPayload (.obj [("email", .str "")]) "update" = Except.ok JsValue.undefined ∧
    validateEmail "" = Except.error (.api invalidEmailError) := by decide

/-- C8 amended: update validation fails with InvalidArgument on an empty
payload; an email that is present and truthy must be a string with
non-empty trim and is then checked by validateEmail on its trimmed form;
a present but falsy email (empty string, null, 0, false) is treated like
an absent one, and no other field is mandatory. -/
theorem c8_update_payload_validation (fs : List (String × JsValue)) :
    (fs = [] → validateStudentPayload (.obj fs) "update" =
        .error (.api ⟨400, "Student data is required for update operation."⟩)) ∧
    (fs ≠ [] → lookupField fs "email" = none →
        validateStudentPayload (.obj fs) "update" = Except.ok JsValue.undefined) ∧
    (∀ e, fs ≠ [] → lookupField fs "email" = some e → e.truthy = false →
        validateStudentPayload (.obj fs) "update" = Except.ok JsValue.undefined) ∧
    (∀ e, fs ≠ [] → lookupField fs "email" = some e → e.truthy = true →
        e.typeOf ≠ "string" →
        validateStudentPayload (.obj fs) "update" = .error (.api updateEmailError)) ∧
    (∀ s, fs ≠ [] → lookupField fs "email" = some (.str s) → s ≠ "" → jsTrim s = "" →
        validateStudentPayload (.obj fs) "update" = .error (.api updateEmailError)) ∧
    (∀ s, fs ≠ [] → lookupField fs "email" = some (.str s) → jsTrim s ≠ "" →
        validateStudentPayload (.obj fs) "update" = validateEmail (jsTrim s)) := by
  have hops : (("update" : String) == "create") = false := by decide
  have hopu : (("update" : String) == "update") = true := by decide
  refine ⟨?_, ?_, ?_, ?_, ?_, ?_⟩
  · rintro rfl; rfl
  · intro hfs hlk
    simp [validateStudentPayload, JsValue.truthy, JsValue.getField,
      keysLength_ne_zero fs hfs, hlk, hops, hopu]
  · intro e hfs hlk he
    simp [validateStudentPayload, JsValue.getField,
      keysLength_ne_zero fs hfs, hlk, hops, hopu, he,
      show (JsValue.obj fs).truthy = true from rfl]
  · intro e hfs hlk he ht
    simp [validateStudentPayload, JsValue.getField,
      keysLength_ne_zero fs hfs, hlk, hops, hopu, he, ht,
      show (JsValue.obj fs).truthy = true from rfl]
  · intro s hfs hlk hs htr
    have hs2 : (s == "") = false := beq_eq_false_iff_ne.mpr hs
    simp [validateStudentPayload, JsValue.truthy, JsValue.getField, JsValue.typeOf,
      JsValue.asStr, keysLength_ne_zero fs hfs, hlk, hops, hopu, hs2, htr]
  · intro s hfs hlk htr
    have hs : s ≠ "" := by
      intro h; subst h; exact htr rfl
    have hs2 : (s == "") = false := beq_eq_false_iff_ne.mpr hs
    have htr2 : (jsTrim s == "") = false := beq_eq_false_iff_ne.mpr htr
    simp [validateStudentPayload, JsValue.truthy, JsValue.getField, JsValue.typeOf,
      JsValue.asStr, keysLength_ne_zero fs hfs, hlk, hops, hopu, hs2, htr2]

/-- C8 witness: the amended theorem applied to an update body without an
email, one with a truthy non-string email, and one with a trimmable valid
email. -/
theorem c8_update_payload_witness :
    validateStudentPayload (.obj [("name", .str "A")]) "update" = Except.ok JsValue.undefined ∧
    validateStudentPayload (.obj [("email", .num 5)]) "update" =
      Except.error (.api updateEmailError) ∧
    validateStudentPayload (.obj [("email", .str " a@b.com ")]) "update" =
      validateEmail (jsTrim " a@b.com ") :=
  ⟨(c8_update_payload_validation [("name", .str "A")]).2.1 (by decide) rfl,
   (c8_update_payload_validation [("email", .num 5)]).2.2.2.1 (.num 5)
     (by decide) rfl (by decide) (by decide),
   (c8_update_payload_validation [("email", .str " a@b.com ")]).2.2.2.2.2 " a@b.com "
     (by decide) rfl (by decide)⟩

end Students
